import Mathlib

/-!
# go-stremio: wire data model and request pipeline

A shallow embedding of `types.go` (the JSON data contract) and `middleware.go`
(timer, CORS and logging middleware) together with the properties proved about
them.

The Go standard library and third-party calls the source makes are modelled by
small executable definitions that follow the documented behaviour of the
called function; each of them names the function it stands for.
-/

set_option autoImplicit false

namespace Stremio

/-! ## JSON documents and the `encoding/json` struct encoder -/

/-- A JSON document. Objects keep their members in emission order. -/
inductive Json where
  | null
  | bool (b : Bool)
  | num (n : Int)
  | str (s : String)
  | arr (xs : List Json)
  | obj (members : List (String × Json))

/-- The members of a JSON object (none for any other document). -/
def Json.members : Json → List (String × Json)
  | .obj ms => ms
  | _ => []

/-- The keys of a JSON object, in emission order. -/
def Json.keys (j : Json) : List String :=
  j.members.map Prod.fst

/-- A Go slice: `none` is the nil slice, `some xs` a non-nil slice. -/
abbrev Slice (α : Type) := Option (List α)

/-- Go's `len` on a slice; the nil slice has length zero. -/
def Slice.len {α : Type} : Slice α → Nat
  | none => 0
  | some xs => xs.length

/-- The view `encoding/json` takes of a field value when it decides whether
the value is empty: only the kind and, for sized kinds, the size matter. -/
inductive FieldValue where
  | string (s : String)
  | bool (b : Bool)
  | uint (n : Nat)
  | int (i : Int)
  | slice (len : Nat)
  | struct

/-- The function `isEmptyValue` of `encoding/json`: false, 0, and any empty
slice or string are empty; a struct value never is. -/
def isEmptyValue : FieldValue → Bool
  | .string s => s == ""
  | .bool b => !b
  | .uint n => n == 0
  | .int i => i == 0
  | .slice len => len == 0
  | .struct => false

/-- A struct field tagged with a plain key: always emitted. -/
def field (key : String) (doc : Json) : List (String × Json) :=
  [(key, doc)]

/-- A struct field tagged `omitempty`: emitted unless `isEmptyValue` holds. -/
def omitempty (key : String) (v : FieldValue) (doc : Json) : List (String × Json) :=
  if isEmptyValue v then [] else [(key, doc)]

/-- Encoding of a Go slice: `null` for the nil slice, else an array. -/
def encodeSlice {α : Type} (enc : α → Json) : Slice α → Json
  | none => .null
  | some xs => .arr (xs.map enc)

/-- Encoding of a `[]string`. -/
def encodeStrings (xs : Slice String) : Json :=
  encodeSlice Json.str xs

/-! ## types.go -/

/-- The struct `ResourceItem`. -/
structure ResourceItem where
  Name : String := ""
  Types : Slice String := none
  IDprefixes : Slice String := none

/-- The struct `BehaviorHints`. -/
structure BehaviorHints where
  Adult : Bool := false
  P2P : Bool := false
  Configurable : Bool := false
  ConfigurationRequired : Bool := false

/-- The struct `ExtraItem`. -/
structure ExtraItem where
  Name : String := ""
  IsRequired : Bool := false
  Options : Slice String := none
  OptionsLimit : Int := 0

/-- The struct `CatalogItem`; the Go field `Type` is written `Type_` (`Type` is reserved). -/
structure CatalogItem where
  Type_ : String := ""
  ID : String := ""
  Name : String := ""
  Extra : Slice ExtraItem := none

/-- The struct `Manifest`. -/
structure Manifest where
  ID : String := ""
  Name : String := ""
  Description : String := ""
  Version : String := ""
  ResourceItems : Slice ResourceItem := none
  Types : Slice String := none
  Catalogs : Slice CatalogItem := none
  IDprefixes : Slice String := none
  Background : String := ""
  Logo : String := ""
  ContactEmail : String := ""
  BehaviorHints : BehaviorHints := {}

/-- The struct `StreamItem`; `FileIndex` is a `uint8`. -/
structure StreamItem where
  URL : String := ""
  YoutubeID : String := ""
  InfoHash : String := ""
  ExternalURL : String := ""
  Title : String := ""
  FileIndex : Fin 256 := ⟨0, by decide⟩

/-- JSON encoding of a `ResourceItem`, field by field in declaration order. -/
def ResourceItem.encode (r : ResourceItem) : Json :=
  .obj (field "name" (.str r.Name)
    ++ field "types" (encodeStrings r.Types)
    ++ omitempty "idPrefixes" (.slice r.IDprefixes.len) (encodeStrings r.IDprefixes))

/-- JSON encoding of a `BehaviorHints`. -/
def BehaviorHints.encode (b : BehaviorHints) : Json :=
  .obj (omitempty "adult" (.bool b.Adult) (.bool b.Adult)
    ++ omitempty "p2p" (.bool b.P2P) (.bool b.P2P)
    ++ omitempty "configurable" (.bool b.Configurable) (.bool b.Configurable)
    ++ omitempty "configurationRequired" (.bool b.ConfigurationRequired)
        (.bool b.ConfigurationRequired))

/-- JSON encoding of an `ExtraItem`. -/
def ExtraItem.encode (e : ExtraItem) : Json :=
  .obj (field "name" (.str e.Name)
    ++ omitempty "isRequired" (.bool e.IsRequired) (.bool e.IsRequired)
    ++ omitempty "options" (.slice e.Options.len) (encodeStrings e.Options)
    ++ omitempty "optionsLimit" (.int e.OptionsLimit) (.num e.OptionsLimit))

/-- JSON encoding of a `CatalogItem`. -/
def CatalogItem.encode (c : CatalogItem) : Json :=
  .obj (field "type" (.str c.Type_)
    ++ field "id" (.str c.ID)
    ++ field "name" (.str c.Name)
    ++ omitempty "extra" (.slice c.Extra.len) (encodeSlice ExtraItem.encode c.Extra))

/-- JSON encoding of a `Manifest`: the members `encoding/json` emits for the
struct tags of `types.go`, in declaration order. The `behaviorHints` field is
a struct value, which `isEmptyValue` never reports as empty. -/
def Manifest.encode (m : Manifest) : Json :=
  .obj (field "id" (.str m.ID)
    ++ field "name" (.str m.Name)
    ++ field "description" (.str m.Description)
    ++ field "version" (.str m.Version)
    ++ omitempty "resources" (.slice m.ResourceItems.len)
        (encodeSlice ResourceItem.encode m.ResourceItems)
    ++ field "types" (encodeStrings m.Types)
    ++ field "catalogs" (encodeSlice CatalogItem.encode m.Catalogs)
    ++ omitempty "idPrefixes" (.slice m.IDprefixes.len) (encodeStrings m.IDprefixes)
    ++ omitempty "background" (.string m.Background) (.str m.Background)
    ++ omitempty "logo" (.string m.Logo) (.str m.Logo)
    ++ omitempty "contactEmail" (.string m.ContactEmail) (.str m.ContactEmail)
    ++ omitempty "behaviorHints" .struct m.BehaviorHints.encode)

/-- JSON encoding of a `StreamItem`. -/
def StreamItem.encode (s : StreamItem) : Json :=
  .obj (omitempty "url" (.string s.URL) (.str s.URL)
    ++ omitempty "ytId" (.string s.YoutubeID) (.str s.YoutubeID)
    ++ omitempty "infoHash" (.string s.InfoHash) (.str s.InfoHash)
    ++ omitempty "externalUrl" (.string s.ExternalURL) (.str s.ExternalURL)
    ++ omitempty "title" (.string s.Title) (.str s.Title)
    ++ omitempty "fileIdx" (.uint s.FileIndex.val) (.num s.FileIndex.val))

/-- The call `json.Marshal` on a `StreamItem`: the types of `types.go` hold
only strings, booleans, integers, slices and structs, for which the encoder
has no error case, so the result is always the encoded document. -/
def StreamItem.marshal (s : StreamItem) : Except String Json :=
  .ok s.encode

/-- The keys naming a stream source. -/
def sourceKeys : List String := ["url", "ytId", "infoHash", "externalUrl"]

/-- How many source keys a document carries. -/
def sourceKeyCount (doc : Json) : Nat :=
  (doc.keys.filter (fun k => sourceKeys.contains k)).length

/-- How many of the four source fields of a `StreamItem` are populated. -/
def StreamItem.populatedSources (s : StreamItem) : Nat :=
  (if s.URL = "" then 0 else 1) + (if s.YoutubeID = "" then 0 else 1)
    + (if s.InfoHash = "" then 0 else 1) + (if s.ExternalURL = "" then 0 else 1)

/-- The manifest of the concrete scenario: id, name and version set, one
resource descriptor `catalog` for type `movie`, everything else zero. -/
def exampleManifest : Manifest :=
  { ID := "com.example.test", Name := "Test Addon", Version := "1.0.0",
    ResourceItems := some [{ Name := "catalog", Types := some ["movie"] }] }

/-- The stream of the concrete scenario: only `InfoHash` and `FileIndex` set. -/
def exampleStream : StreamItem :=
  { InfoHash := "abc123", FileIndex := ⟨2, by decide⟩ }

/-- A stream with two source alternatives populated. -/
def twoSourceStream : StreamItem :=
  { URL := "https://example.com/video.mp4", InfoHash := "abc123" }

/-! ## Go runtime pieces used by middleware.go -/

/-- An instant (a `time.Time`), in nanoseconds since the zero `time.Time`,
January 1 of year 1, 00:00 UTC. -/
abbrev Time := Int

/-- A `time.Duration`: a signed 64-bit count of nanoseconds. -/
abbrev Duration := Int

/-- The largest `time.Duration`, `1<<63 - 1`. -/
def maxDuration : Duration := 2 ^ 63 - 1

/-- The smallest `time.Duration`, `-1 << 63`. -/
def minDuration : Duration := -(2 ^ 63)

/-- The method `Time.Sub`: the duration `t - u`; when the result exceeds the
maximum (or minimum) value a `Duration` can hold, the maximum (or minimum)
duration is returned. -/
def Time.Sub (t u : Time) : Duration :=
  if t - u > maxDuration then maxDuration
  else if t - u < minDuration then minDuration
  else t - u

/-- The call `time.Since(t)`, shorthand for `time.Now().Sub(t)`, with `now`
the clock reading at the call. -/
def Since (now t : Time) : Duration :=
  Time.Sub now t

/-- The method `Duration.Milliseconds`: `int64(d) / 1e6`, Go's integer
division, which truncates toward zero. -/
def Duration.Milliseconds (d : Duration) : Int :=
  Int.tdiv d 1000000

/-- The call `strconv.FormatInt(i, 10)`: the decimal digits of `i`, preceded
by a minus sign when `i` is negative. -/
def FormatInt (i : Int) : String :=
  if i < 0 then "-" ++ Nat.repr i.natAbs else Nat.repr i.toNat

/-- A Go interface value (`any`) as far as the middleware inspects it: nil, a
`time.Time`, or a value of some other dynamic type (named by `typeName`). -/
inductive Any where
  | nil
  | time (t : Time)
  | other (typeName : String)
  deriving DecidableEq

/-- A context key: a Go string, or a value of any other comparable type. -/
inductive Key where
  | string (s : String)
  | typed (typeName : String) (id : Nat)
  deriving DecidableEq

/-- A `context.Context` as a chain of `WithValue` nodes over a root that
carries no values. -/
inductive Context where
  | background
  | withValue (parent : Context) (key : Key) (val : Any)

/-- The call `context.WithValue(parent, key, val)`: a new node over `parent`. -/
def WithValue (parent : Context) (key : Key) (val : Any) : Context :=
  .withValue parent key val

/-- The method `Context.Value`: the value of the innermost node with this key,
nil when no node has it. -/
def Context.Value : Context → Key → Any
  | .background, _ => .nil
  | .withValue parent k v, key => if k = key then v else parent.Value key

/-- The type assertion `x.(time.Time)`: the time held by `x`, or the run-time
panic raised when `x` is nil or holds another type. -/
def assertTime : Any → Except String Time
  | .time t => .ok t
  | .nil => .error "interface conversion: interface {} is nil, not time.Time"
  | .other typeName =>
      .error ("interface conversion: interface {} is " ++ typeName ++ ", not time.Time")

/-- An `http.Header`: header names with their values; the first entry for a
name is the map entry. -/
abbrev Header := List (String × List String)

/-- The predicate `validHeaderFieldByte` of `net/textproto`: the token
characters of RFC 7230 (ASCII letters, digits and a fixed set of symbols). -/
def validHeaderFieldByte (c : Char) : Bool :=
  c.isAlphanum || "!#$%&*+-.^_|~".data.contains c || c.toNat == 39 || c.toNat == 96

/-- The canonicalising loop of `textproto.CanonicalMIMEHeaderKey`: the first
letter and every letter after a hyphen upper case, the others lower case. -/
def canonicalMIMEHeaderKey : Bool → List Char → List Char
  | _, [] => []
  | upper, c :: cs =>
      let c1 := if upper && c.isLower then c.toUpper
        else if !upper && c.isUpper then c.toLower else c
      c1 :: canonicalMIMEHeaderKey (c1 == '-') cs

/-- The call `http.CanonicalHeaderKey(s)`: a key holding a character that is
not a valid header field byte is returned unchanged. -/
def CanonicalHeaderKey (s : String) : String :=
  if s.data.all validHeaderFieldByte then String.mk (canonicalMIMEHeaderKey true s.data) else s

/-- The predicate `unicode.IsSpace`. -/
def isSpace (c : Char) : Bool :=
  [0x09, 0x0A, 0x0B, 0x0C, 0x0D, 0x20, 0x85, 0xA0, 0x1680, 0x2028, 0x2029, 0x202F, 0x205F,
    0x3000].contains c.toNat || (0x2000 ≤ c.toNat && c.toNat ≤ 0x200A)

/-- The call `strings.TrimSpace(s)`: leading and trailing white space removed. -/
def TrimSpace (s : String) : String :=
  String.mk ((s.data.dropWhile isSpace).reverse.dropWhile isSpace).reverse

/-- The call `strings.ToUpper(s)` on ASCII text (the configured methods are
ASCII constants). -/
def ToUpper (s : String) : String :=
  String.mk (s.data.map Char.toUpper)

/-- Splitting a character list at every occurrence of `sep`; `cur` holds the
piece being read, reversed. -/
def splitChars (sep : Char) : List Char → List Char → List String
  | cur, [] => [String.mk cur.reverse]
  | cur, c :: cs =>
      if c = sep then String.mk cur.reverse :: splitChars sep [] cs
      else splitChars sep (c :: cur) cs

/-- The call `strings.Split(s, ",")`. -/
def SplitComma (s : String) : List String :=
  splitChars ',' [] s.data

/-- The call `strings.Join(xs, ",")`. -/
def JoinComma (xs : List String) : String :=
  ",".intercalate xs

/-- The method `Header.Get`: the first value stored under the canonical form
of `key`, or the empty string. -/
def Header.Get (h : Header) (key : String) : String :=
  match h.lookup (CanonicalHeaderKey key) with
  | some (v :: _) => v
  | _ => ""

/-- The method `Header.Set`: the entry for the canonical form of `key` is
replaced by the single value `value`. -/
def Header.Set (h : Header) (key value : String) : Header :=
  (CanonicalHeaderKey key, [value]) :: h.filter (fun kv => kv.1 != CanonicalHeaderKey key)

/-- An `http.Request`, read through the fields the middleware uses; `URL` is
the rendering of the request URL. -/
structure Request where
  Method : String := ""
  URL : String := ""
  RemoteAddr : String := ""
  Header : Header := []
  ctx : Context := .background

/-- The method `Request.Context`. -/
def Request.Context (r : Request) : Context :=
  r.ctx

/-- What has been written to an `http.ResponseWriter`: its header map and the
status code once `WriteHeader` has been called. -/
structure Response where
  Header : Header := []
  status : Option Nat := none

/-- A logrus entry: level, message and structured fields. -/
structure Entry where
  level : String
  message : String
  fields : List (String × String)
  deriving DecidableEq

/-- A `*http.Request`: the address of a request in the request store. -/
abbrev RequestPtr := Nat

/-- An `http.ResponseWriter`: the handle of a response in the response store. -/
abbrev ResponseWriter := Nat

/-- The state a handler runs in: the clock reading, the requests and
responses in memory, the next free request address, and the log written so
far. -/
structure World where
  now : Time
  requests : RequestPtr → Request
  allocated : Nat
  responses : ResponseWriter → Response
  log : List Entry

/-- How a handler call ends: it returns, or it panics with a value; both
leave a world behind. -/
inductive Outcome where
  | returned (world : World)
  | panicked (value : String) (world : World)

/-- The world an outcome leaves behind. -/
def Outcome.world : Outcome → World
  | .returned world => world
  | .panicked _ world => world

/-- An `http.Handler`, by its `ServeHTTP` method. -/
abbrev Handler := ResponseWriter → RequestPtr → World → Outcome

/-- The call `time.Now()`: the clock reading of the world. -/
def Now (world : World) : Time :=
  world.now

/-- The method `Request.WithContext`: a shallow copy of `*r` with its context
changed to `ctx`, stored at a fresh address; `*r` is not written. -/
def WithContext (r : RequestPtr) (ctx : Context) (world : World) : RequestPtr × World :=
  (world.allocated,
    { world with
      requests := Function.update world.requests world.allocated
        { world.requests r with ctx := ctx }
      allocated := world.allocated + 1 })

/-- The call `log.WithFields(fields).Info(msg)`: one entry at level info is
appended to the log. -/
def Info (fields : List (String × String)) (msg : String) (world : World) : World :=
  { world with log := world.log ++ [{ level := "info", message := msg, fields := fields }] }

/-! ## github.com/gorilla/handlers: the CORS handler (cors.go)

`createCORSmiddleware` only configures this third-party handler; its
behaviour is modelled after the library's `cors.go`. -/

/-- The method `ResponseWriter.Header().Set(key, value)` on writer `w`. -/
def SetHeader (w : ResponseWriter) (key value : String) (world : World) : World :=
  { world with
    responses := Function.update world.responses w
      { world.responses w with Header := (world.responses w).Header.Set key value } }

/-- The method `ResponseWriter.WriteHeader(code)` on writer `w`: the status
is fixed by the first call. -/
def WriteHeader (w : ResponseWriter) (code : Nat) (world : World) : World :=
  { world with
    responses := Function.update world.responses w
      { world.responses w with status := some ((world.responses w).status.getD code) } }

/-- The struct `cors`: the policy the handler applies. -/
structure cors where
  allowedHeaders : List String
  allowedMethods : List String
  allowedOrigins : List String
  allowedOriginValidator : Option (String → Bool)
  exposedHeaders : List String
  maxAge : Int
  ignoreOptions : Bool
  allowCredentials : Bool
  optionStatusCode : Nat

/-- A `CORSOption`: a change to the policy. -/
abbrev CORSOption := cors → cors

/-! The constants of `cors.go`. -/

def corsOptionMethod : String := "OPTIONS"
def corsAllowOriginHeader : String := "Access-Control-Allow-Origin"
def corsExposeHeadersHeader : String := "Access-Control-Expose-Headers"
def corsMaxAgeHeader : String := "Access-Control-Max-Age"
def corsAllowMethodsHeader : String := "Access-Control-Allow-Methods"
def corsAllowHeadersHeader : String := "Access-Control-Allow-Headers"
def corsAllowCredentialsHeader : String := "Access-Control-Allow-Credentials"
def corsRequestMethodHeader : String := "Access-Control-Request-Method"
def corsRequestHeadersHeader : String := "Access-Control-Request-Headers"
def corsOriginHeader : String := "Origin"
def corsVaryHeader : String := "Vary"
def corsOriginMatchAll : String := "*"

def defaultCorsOptionStatusCode : Nat := 200
def defaultCorsMethods : List String := ["GET", "HEAD", "POST"]
def defaultCorsHeaders : List String := ["Accept", "Accept-Language", "Content-Language", "Origin"]

/-- The method `isMatch`: whether `needle` is one of `haystack`. -/
def isMatch (needle : String) (haystack : List String) : Bool :=
  haystack.contains needle

/-- The option `AllowedHeaders`: each header, trimmed and in canonical form,
is appended to the allowed headers unless empty or already there. -/
def AllowedHeaders (headers : List String) : CORSOption :=
  fun ch => headers.foldl (fun ch v =>
    let normalizedHeader := CanonicalHeaderKey (TrimSpace v)
    if normalizedHeader == "" then ch
    else if !isMatch normalizedHeader ch.allowedHeaders then
      { ch with allowedHeaders := ch.allowedHeaders ++ [normalizedHeader] }
    else ch) ch

/-- The option `AllowedMethods`: the allowed methods are replaced by the given
ones, trimmed and in upper case, without empty ones or repetitions. -/
def AllowedMethods (methods : List String) : CORSOption :=
  fun ch => methods.foldl (fun ch v =>
    let normalizedMethod := ToUpper (TrimSpace v)
    if normalizedMethod == "" then ch
    else if !isMatch normalizedMethod ch.allowedMethods then
      { ch with allowedMethods := ch.allowedMethods ++ [normalizedMethod] }
    else ch) { ch with allowedMethods := [] }

/-- The option `AllowedOrigins`: a list holding `*` is replaced by `[*]`. -/
def AllowedOrigins (origins : List String) : CORSOption :=
  fun ch =>
    if origins.contains corsOriginMatchAll then { ch with allowedOrigins := [corsOriginMatchAll] }
    else { ch with allowedOrigins := origins }

/-- The function `parseCORSOptions`: the options applied in order to the
default policy. -/
def parseCORSOptions (opts : List CORSOption) : cors :=
  opts.foldl (fun ch option => option ch)
    { allowedMethods := defaultCorsMethods
      allowedHeaders := defaultCorsHeaders
      allowedOrigins := []
      allowedOriginValidator := none
      exposedHeaders := []
      maxAge := 0
      ignoreOptions := false
      allowCredentials := false
      optionStatusCode := defaultCorsOptionStatusCode }

/-- The method `isOriginAllowed`. -/
def cors.isOriginAllowed (ch : cors) (origin : String) : Bool :=
  if origin == "" then false
  else match ch.allowedOriginValidator with
    | some validator => validator origin
    | none =>
        if ch.allowedOrigins.length == 0 then true
        else ch.allowedOrigins.any (fun allowedOrigin =>
          allowedOrigin == origin || allowedOrigin == corsOriginMatchAll)

/-- The loop of `ServeHTTP` over the requested headers of a preflight: empty
and default headers are skipped, a header outside the allowed ones ends the
request (`none`, answered 403), the others are collected in order. -/
def cors.requestedHeaders (ch : cors) : List String → List String → Option (List String)
  | allowedHeaders, [] => some allowedHeaders
  | allowedHeaders, v :: vs =>
      let canonicalHeader := CanonicalHeaderKey (TrimSpace v)
      if canonicalHeader == "" || isMatch canonicalHeader defaultCorsHeaders then
        ch.requestedHeaders allowedHeaders vs
      else if !isMatch canonicalHeader ch.allowedHeaders then none
      else ch.requestedHeaders (allowedHeaders ++ [canonicalHeader]) vs

/-- The origin `ServeHTTP` returns in `Access-Control-Allow-Origin`. -/
def cors.returnOrigin (ch : cors) (origin : String) : String :=
  if ch.allowedOriginValidator.isNone && ch.allowedOrigins.length == 0 then "*"
  else if ch.allowedOrigins.contains corsOriginMatchAll then "*"
  else origin

/-- The headers `ServeHTTP` writes for preflight and actual requests alike:
credentials, `Vary`, and the allowed origin. -/
def cors.writeCommonHeaders (ch : cors) (w : ResponseWriter) (origin : String)
    (world : World) : World :=
  let world := if ch.allowCredentials then SetHeader w corsAllowCredentialsHeader "true" world
    else world
  let world := if ch.allowedOrigins.length > 1 then SetHeader w corsVaryHeader corsOriginHeader world
    else world
  SetHeader w corsAllowOriginHeader (ch.returnOrigin origin) world

/-- The method `ServeHTTP` of the CORS handler wrapping `h`. -/
def cors.ServeHTTP (ch : cors) (h : Handler) : Handler :=
  fun w r world =>
    let req := world.requests r
    let origin := req.Header.Get corsOriginHeader
    if !ch.isOriginAllowed origin then
      if req.Method != corsOptionMethod || ch.ignoreOptions then h w r world
      else .returned world
    else if req.Method == corsOptionMethod then
      if ch.ignoreOptions then h w r world
      else if (req.Header.lookup corsRequestMethodHeader).isNone then
        .returned (WriteHeader w 400 world)
      else
        let method := req.Header.Get corsRequestMethodHeader
        if !isMatch method ch.allowedMethods then .returned (WriteHeader w 405 world)
        else
          match ch.requestedHeaders [] (SplitComma (req.Header.Get corsRequestHeadersHeader)) with
          | none => .returned (WriteHeader w 403 world)
          | some allowedHeaders =>
              let world := if allowedHeaders.length > 0 then
                  SetHeader w corsAllowHeadersHeader (JoinComma allowedHeaders) world
                else world
              let world := if ch.maxAge > 0 then
                  SetHeader w corsMaxAgeHeader (FormatInt ch.maxAge) world
                else world
              let world := if !isMatch method defaultCorsMethods then
                  SetHeader w corsAllowMethodsHeader method world
                else world
              let world := ch.writeCommonHeaders w origin world
              .returned (WriteHeader w ch.optionStatusCode world)
    else
      let world := if ch.exposedHeaders.length > 0 then
          SetHeader w corsExposeHeadersHeader (JoinComma ch.exposedHeaders) world
        else world
      let world := ch.writeCommonHeaders w origin world
      h w r world

/-- The function `handlers.CORS`: the policy is parsed from the options and
the handler wraps `h`. -/
def CORS (opts : List CORSOption) : Handler → Handler :=
  fun h => (parseCORSOptions opts).ServeHTTP h

/-! ## middleware.go -/

/-- The function `timerMiddleware`. -/
def timerMiddleware (next : Handler) : Handler :=
  fun w r world =>
    let rCtx := (world.requests r).Context
    let (newReq, world1) := WithContext r (WithValue rCtx (.string "start") (.time (Now world))) world
    next w newReq world1

/-- The duration text of the logging middleware (lines 65-66): the elapsed
time since `reqStart` in whole milliseconds, in decimal, followed by `ms`. -/
def durationString (now reqStart : Time) : String :=
  FormatInt (Since now reqStart).Milliseconds ++ "ms"

/-- The function `createLoggingMiddleware`. -/
def createLoggingMiddleware (logRequests : Bool) : Handler → Handler :=
  if logRequests then
    fun before => fun w r world =>
      let rCtx := (world.requests r).Context
      match before w r world with
      | .panicked value world1 => .panicked value world1
      | .returned world1 =>
          match assertTime (rCtx.Value (.string "start")) with
          | .error value => .panicked value world1
          | .ok reqStart =>
              let req := world1.requests r
              let fields := [
                ("method", req.Method),
                ("url", req.URL),
                ("remoteAddr", req.RemoteAddr),
                ("userAgent", req.Header.Get "User-Agent"),
                ("duration", durationString (Now world1) reqStart)]
              .returned (Info fields "Handled request" world1)
  else
    fun next => next

/-- The allowed headers `createCORSmiddleware` lists. -/
def corsHeaderList : List String :=
  ["Accept", "Accept-Language", "Content-Type", "Origin",
    "Accept-Encoding", "Content-Language", "X-Requested-With"]

/-- The function `createCORSmiddleware`. -/
def createCORSmiddleware : Handler → Handler :=
  let headersOk := AllowedHeaders corsHeaderList
  let originsOk := AllowedOrigins ["*"]
  let methodsOk := AllowedMethods ["GET"]
  let corsHandler := CORS [originsOk, headersOk, methodsOk]
  fun next => corsHandler next

/-- The policy `createCORSmiddleware` configures. -/
def corsPolicy : cors :=
  parseCORSOptions [AllowedOrigins ["*"], AllowedHeaders corsHeaderList, AllowedMethods ["GET"]]

/-- Whether the serialization of a `StreamItem` emits at most one source key,
or rejects the value with an error. -/
def StreamItem.marshalRespectsOneOf (s : StreamItem) : Bool :=
  match s.marshal with
  | .ok doc => decide (sourceKeyCount doc ≤ 1)
  | .error _ => true

/-- The `duration` field of the last log entry an outcome leaves behind. -/
def Outcome.loggedDuration (o : Outcome) : Option String :=
  match o.world.log.getLast? with
  | some entry => entry.fields.lookup "duration"
  | none => none

/-- A handler that sets the status 200, lets `elapsed` nanoseconds pass and
returns. -/
def okHandler (elapsed : Int) : Handler :=
  fun w _ world => .returned { WriteHeader w 200 world with now := world.now + elapsed }

/-- A handler that panics at once. -/
def panicHandler : Handler :=
  fun _ _ world => .panicked "handler failed" world

/-- A GET request for the manifest whose context is `ctx`. -/
def manifestRequest (ctx : Context) : Request :=
  { Method := "GET", URL := "/manifest.json", RemoteAddr := "203.0.113.7:51234",
    Header := [("User-Agent", ["StremioShell/4.4.106"])], ctx := ctx }

/-- A world at clock reading `now` whose only request, at address 0, is the
manifest request with context `ctx`; nothing written or logged yet. -/
def worldWith (now : Time) (ctx : Context) : World :=
  { now := now
    requests := fun _ => manifestRequest ctx
    allocated := 1
    responses := fun _ => {}
    log := [] }

/-- Whether the duration logged by an outcome is the whole number of
milliseconds between `reqStart` and `done`, in decimal, followed by `ms`. -/
def Outcome.logsWholeMilliseconds (o : Outcome) (reqStart done : Time) : Bool :=
  o.loggedDuration == some (Nat.repr ((done - reqStart).toNat / 1000000) ++ "ms")

/-- The instant 2026-11-01 00:00 UTC. -/
def november2026 : Time := 63929088000000000000

/-- A preflight request from the Stremio web client: method OPTIONS with an
origin, asking to send a GET with the headers in `requestHeaders`. -/
def preflightRequest (requestHeaders : String) : Request :=
  { Method := "OPTIONS", URL := "/manifest.json", RemoteAddr := "203.0.113.7:51234",
    Header := [("Origin", ["https://app.strem.io"]),
      ("Access-Control-Request-Method", ["GET"]),
      ("Access-Control-Request-Headers", [requestHeaders])] }

/-- A world whose only request is the preflight request above. -/
def preflightWorld (requestHeaders : String) : World :=
  { now := 42
    requests := fun _ => preflightRequest requestHeaders
    allocated := 1
    responses := fun _ => {}
    log := [] }

/-- The headers a preflight asks for in `Access-Control-Request-Headers`, in
canonical form and in request order, without empty names and without the four
headers the CORS library always allows (Accept, Accept-Language,
Content-Language, Origin). -/
def requestedNonDefaultHeaders (requestHeaders : String) : List String :=
  ((SplitComma requestHeaders).map (fun v => CanonicalHeaderKey (TrimSpace v))).filter
    (fun c => !(c == "" || ["Accept", "Accept-Language", "Content-Language", "Origin"].contains c))

/-- A preflight request whose `Origin` header is present with an empty
value. -/
def emptyOriginRequest : Request :=
  { Method := "OPTIONS", URL := "/manifest.json", RemoteAddr := "203.0.113.7:51234",
    Header := [("Origin", [""]), ("Access-Control-Request-Method", ["GET"])] }

/-- A world whose only request is the preflight with the empty origin. -/
def emptyOriginWorld : World :=
  { now := 42
    requests := fun _ => emptyOriginRequest
    allocated := 1
    responses := fun _ => {}
    log := [] }

/-! ## Properties of the data model -/

theorem omitempty_string (key s : String) :
    omitempty key (.string s) (.str s) = if s = "" then [] else [(key, .str s)] := by
  by_cases h : s = "" <;> simp [omitempty, isEmptyValue, h]

theorem omitempty_slice (key : String) (n : Nat) (doc : Json) :
    omitempty key (.slice n) doc = if n = 0 then [] else [(key, doc)] := by
  by_cases h : n = 0 <;> simp [omitempty, isEmptyValue, h]

theorem omitempty_uint (key : String) (n : Nat) (doc : Json) :
    omitempty key (.uint n) doc = if n = 0 then [] else [(key, doc)] := by
  by_cases h : n = 0 <;> simp [omitempty, isEmptyValue, h]

theorem omitempty_struct (key : String) (doc : Json) :
    omitempty key .struct doc = [(key, doc)] := by
  simp [omitempty, isEmptyValue]

/-- C1, as the code behaves: the JSON encoding of every Manifest has the keys
id, name, description, version, then resources exactly when ResourceItems is
non-empty, then types and catalogs, then each of idPrefixes, background, logo,
contactEmail exactly when its field is non-zero, and last ALWAYS the key
behaviorHints; for the manifest of the concrete scenario (all optional fields
zero, BehaviorHints all false) the keys are id, name, description, version,
resources, types, catalogs, behaviorHints, the last holding the empty object. -/
theorem manifest_encode_keys :
    (∀ m : Manifest, m.encode.keys =
      ["id", "name", "description", "version"]
        ++ (if m.ResourceItems.len = 0 then [] else ["resources"])
        ++ ["types", "catalogs"]
        ++ (if m.IDprefixes.len = 0 then [] else ["idPrefixes"])
        ++ (if m.Background = "" then [] else ["background"])
        ++ (if m.Logo = "" then [] else ["logo"])
        ++ (if m.ContactEmail = "" then [] else ["contactEmail"])
        ++ ["behaviorHints"])
    ∧ exampleManifest.encode.keys =
        ["id", "name", "description", "version", "resources", "types", "catalogs",
          "behaviorHints"]
    ∧ exampleManifest.encode.members.lookup "behaviorHints" = some (.obj []) := by
  refine ⟨?_, ?_, ?_⟩
  · intro m
    simp only [Manifest.encode, Json.keys, Json.members, field, omitempty_string,
      omitempty_slice, omitempty_struct]
    split_ifs <;> simp
  · decide
  · rfl

theorem mem_optional (c : Prop) [Decidable c] (k k0 : String) (v v0 : Json) :
    (k, v) ∈ (if c then [] else [(k0, v0)]) ↔ k = k0 ∧ ¬ c ∧ v = v0 := by
  by_cases h : c <;> simp [h]

theorem streamItem_encode_keys_nodup (s : StreamItem) : s.encode.keys.Nodup := by
  simp only [StreamItem.encode, Json.keys, Json.members, omitempty_string, omitempty_uint]
  split_ifs <;> simp

/-- C2: the JSON encoding of every StreamItem has the member url, ytId,
infoHash, externalUrl, title or fileIdx if and only if the field URL,
YoutubeID, InfoHash, ExternalURL, Title or FileIndex is non-zero, the member
holding the field's value, and has no other member; no key occurs twice; the
stream with only InfoHash "abc123" and FileIndex 2 encodes with exactly the
keys infoHash and fileIdx, holding "abc123" and 2. -/
theorem streamItem_encode_members :
    (∀ (s : StreamItem) (k : String) (v : Json), (k, v) ∈ s.encode.members ↔
      (k = "url" ∧ s.URL ≠ "" ∧ v = .str s.URL)
      ∨ (k = "ytId" ∧ s.YoutubeID ≠ "" ∧ v = .str s.YoutubeID)
      ∨ (k = "infoHash" ∧ s.InfoHash ≠ "" ∧ v = .str s.InfoHash)
      ∨ (k = "externalUrl" ∧ s.ExternalURL ≠ "" ∧ v = .str s.ExternalURL)
      ∨ (k = "title" ∧ s.Title ≠ "" ∧ v = .str s.Title)
      ∨ (k = "fileIdx" ∧ s.FileIndex.val ≠ 0 ∧ v = .num s.FileIndex.val))
    ∧ (∀ s : StreamItem, s.encode.keys.Nodup)
    ∧ exampleStream.encode.keys = ["infoHash", "fileIdx"]
    ∧ exampleStream.encode.members.lookup "infoHash" = some (.str "abc123")
    ∧ exampleStream.encode.members.lookup "fileIdx" = some (.num 2) := by
  refine ⟨?_, ?_, ?_, ?_, ?_⟩
  · intro s k v
    simp only [StreamItem.encode, Json.members, omitempty_string, omitempty_uint,
      List.mem_append, mem_optional, ne_eq, or_assoc]
  · exact streamItem_encode_keys_nodup
  · decide
  · rfl
  · rfl

/-- C3 fails as stated: the stream with URL "https://example.com/video.mp4"
and InfoHash "abc123" is not rejected; it is encoded, and its document holds
both the key url and the key infoHash. -/
theorem twoSourceStream_emits_two_sources :
    twoSourceStream.marshal = .ok twoSourceStream.encode
    ∧ twoSourceStream.encode.keys = ["url", "infoHash"]
    ∧ sourceKeyCount twoSourceStream.encode = 2
    ∧ twoSourceStream.marshalRespectsOneOf = false := by
  refine ⟨rfl, by decide, by decide, by decide⟩

theorem streamItem_encode_mem_iff (s : StreamItem) (k : String) (v : Json) :
    (k, v) ∈ s.encode.members ↔
      (k = "url" ∧ s.URL ≠ "" ∧ v = .str s.URL)
      ∨ (k = "ytId" ∧ s.YoutubeID ≠ "" ∧ v = .str s.YoutubeID)
      ∨ (k = "infoHash" ∧ s.InfoHash ≠ "" ∧ v = .str s.InfoHash)
      ∨ (k = "externalUrl" ∧ s.ExternalURL ≠ "" ∧ v = .str s.ExternalURL)
      ∨ (k = "title" ∧ s.Title ≠ "" ∧ v = .str s.Title)
      ∨ (k = "fileIdx" ∧ s.FileIndex.val ≠ 0 ∧ v = .num s.FileIndex.val) := by
  simp only [StreamItem.encode, Json.members, omitempty_string, omitempty_uint,
    List.mem_append, mem_optional, ne_eq, or_assoc]

theorem streamItem_source_key_iff (s : StreamItem) :
    ("url" ∈ s.encode.keys ↔ s.URL ≠ "")
    ∧ ("ytId" ∈ s.encode.keys ↔ s.YoutubeID ≠ "")
    ∧ ("infoHash" ∈ s.encode.keys ↔ s.InfoHash ≠ "")
    ∧ ("externalUrl" ∈ s.encode.keys ↔ s.ExternalURL ≠ "") := by
  simp only [StreamItem.encode, Json.keys, Json.members, omitempty_string, omitempty_uint]
  refine ⟨?_, ?_, ?_, ?_⟩ <;> split_ifs <;> simp_all

theorem streamItem_sourceKeyCount (s : StreamItem) :
    sourceKeyCount s.encode = s.populatedSources := by
  simp only [sourceKeyCount, StreamItem.populatedSources, StreamItem.encode, Json.keys,
    Json.members, omitempty_string, omitempty_uint]
  by_cases h1 : s.URL = "" <;> by_cases h2 : s.YoutubeID = "" <;>
    by_cases h3 : s.InfoHash = "" <;> by_cases h4 : s.ExternalURL = "" <;>
    by_cases h5 : s.Title = "" <;> by_cases h6 : s.FileIndex.val = 0 <;>
    simp [h1, h2, h3, h4, h5, h6, sourceKeys, List.filter]

/-- C3, amended: serialization of a StreamItem never rejects the value; the
document holds exactly those of the members url, ytId, infoHash, externalUrl
whose field URL, YoutubeID, InfoHash, ExternalURL is non-empty, each holding
its own field's value; so it holds as many source keys as the value has
non-empty source fields, and at most one of them if and only if at most one
of the four fields is populated. -/
theorem streamItem_marshal_sources (s : StreamItem) :
    s.marshal = .ok s.encode
    ∧ (∀ (k : String) (v : Json), ((k, v) ∈ s.encode.members ∧ k ∈ sourceKeys) ↔
        (k = "url" ∧ s.URL ≠ "" ∧ v = .str s.URL)
        ∨ (k = "ytId" ∧ s.YoutubeID ≠ "" ∧ v = .str s.YoutubeID)
        ∨ (k = "infoHash" ∧ s.InfoHash ≠ "" ∧ v = .str s.InfoHash)
        ∨ (k = "externalUrl" ∧ s.ExternalURL ≠ "" ∧ v = .str s.ExternalURL))
    ∧ ("url" ∈ s.encode.keys ↔ s.URL ≠ "")
    ∧ ("ytId" ∈ s.encode.keys ↔ s.YoutubeID ≠ "")
    ∧ ("infoHash" ∈ s.encode.keys ↔ s.InfoHash ≠ "")
    ∧ ("externalUrl" ∈ s.encode.keys ↔ s.ExternalURL ≠ "")
    ∧ sourceKeyCount s.encode = s.populatedSources
    ∧ (s.marshalRespectsOneOf = true ↔ s.populatedSources ≤ 1) := by
  have hcount := streamItem_sourceKeyCount s
  obtain ⟨hurl, hyt, hinfo, hext⟩ := streamItem_source_key_iff s
  refine ⟨rfl, ?_, hurl, hyt, hinfo, hext, hcount, ?_⟩
  · intro k v
    rw [streamItem_encode_mem_iff]
    constructor
    · rintro ⟨hmem, hk⟩
      rcases hmem with h | h | h | h | h | h
      · exact Or.inl h
      · exact Or.inr (Or.inl h)
      · exact Or.inr (Or.inr (Or.inl h))
      · exact Or.inr (Or.inr (Or.inr h))
      · rw [h.1] at hk
        exact absurd hk (by decide)
      · rw [h.1] at hk
        exact absurd hk (by decide)
    · intro hsrc
      rcases hsrc with h | h | h | h
      · exact ⟨Or.inl h, by rw [h.1]; decide⟩
      · exact ⟨Or.inr (Or.inl h), by rw [h.1]; decide⟩
      · exact ⟨Or.inr (Or.inr (Or.inl h)), by rw [h.1]; decide⟩
      · exact ⟨Or.inr (Or.inr (Or.inr (Or.inl h))), by rw [h.1]; decide⟩
  · show decide (sourceKeyCount s.encode ≤ 1) = true ↔ _
    rw [hcount, decide_eq_true_iff]

/-! ## Properties of the middleware -/

/-- C5: for every handler h, createLoggingMiddleware(false)(h) is h itself:
serving any request through it has exactly the outcome of serving it through
h, whatever the request's context holds, and the log it leaves is the log h
leaves (no record is added). -/
theorem createLoggingMiddleware_false (h : Handler) :
    createLoggingMiddleware false h = h
    ∧ (∀ (w : ResponseWriter) (r : RequestPtr) (world : World),
        createLoggingMiddleware false h w r world = h w r world
        ∧ (createLoggingMiddleware false h w r world).world.log = (h w r world).world.log) :=
  ⟨rfl, fun _ _ _ => ⟨rfl, rfl⟩⟩

/-- C4: for every handler h that returns normally (leaving world1) and every
request r whose context holds a time reqStart under the key "start",
createLoggingMiddleware(true)(h) calls h once with the same writer and
request in the world it was entered in, and returns the world h left with
exactly one entry appended to the log: level info, message "Handled request",
fields method, url, remoteAddr, userAgent (the User-Agent header) read from
the request, and duration; everything else is as h left it. -/
theorem createLoggingMiddleware_true_logs (h : Handler) (w : ResponseWriter) (r : RequestPtr)
    (world world1 : World) (reqStart : Time)
    (hstart : (world.requests r).Context.Value (.string "start") = .time reqStart)
    (hret : h w r world = .returned world1) :
    createLoggingMiddleware true h w r world =
      .returned { world1 with
        log := world1.log ++ [{
          level := "info"
          message := "Handled request"
          fields := [
            ("method", (world1.requests r).Method),
            ("url", (world1.requests r).URL),
            ("remoteAddr", (world1.requests r).RemoteAddr),
            ("userAgent", (world1.requests r).Header.Get "User-Agent"),
            ("duration", durationString world1.now reqStart)] }] } := by
  simp [createLoggingMiddleware, hret, hstart, assertTime, Info, Now]

/-- Witness of C4: the handler that answers 200 after 1,999,999 ns, on the
manifest request whose context holds the start time 5, entered at clock
reading 5. -/
theorem createLoggingMiddleware_true_logs_witness :
    ((worldWith 5 (WithValue .background (.string "start") (.time 5))).requests 0).Context.Value
        (.string "start") = .time 5
    ∧ okHandler 1999999 0 0 (worldWith 5 (WithValue .background (.string "start") (.time 5))) =
      .returned (okHandler 1999999 0 0
        (worldWith 5 (WithValue .background (.string "start") (.time 5)))).world
    ∧ createLoggingMiddleware true (okHandler 1999999) 0 0
        (worldWith 5 (WithValue .background (.string "start") (.time 5))) =
      .returned { (okHandler 1999999 0 0
          (worldWith 5 (WithValue .background (.string "start") (.time 5)))).world with
        log := [{
          level := "info"
          message := "Handled request"
          fields := [
            ("method", "GET"),
            ("url", "/manifest.json"),
            ("remoteAddr", "203.0.113.7:51234"),
            ("userAgent", "StremioShell/4.4.106"),
            ("duration", "1ms")] }] } :=
  ⟨rfl, rfl, createLoggingMiddleware_true_logs (okHandler 1999999) 0 0
    (worldWith 5 (WithValue .background (.string "start") (.time 5))) _ 5 rfl rfl⟩

theorem assertTime_error (x : Any) (hx : ∀ t, x ≠ .time t) :
    ∃ value, assertTime x = .error value := by
  cases x with
  | nil => exact ⟨_, rfl⟩
  | time t => exact absurd rfl (hx t)
  | other typeName => exact ⟨_, rfl⟩

/-- C6: for every request whose context holds no time under the key "start"
(nothing, or a value of another type), createLoggingMiddleware(true)(h) ends
in a panic and adds no log record: when h returns normally the panic is the
failed type assertion on the value read under "start", raised in the world h
left; when h itself panics, that panic is passed on. No start time is
substituted. -/
theorem createLoggingMiddleware_true_panics (h : Handler) (w : ResponseWriter) (r : RequestPtr)
    (world : World)
    (hmissing : ∀ t, (world.requests r).Context.Value (.string "start") ≠ .time t) :
    (∃ value, createLoggingMiddleware true h w r world = .panicked value (h w r world).world)
    ∧ (∀ world1, h w r world = .returned world1 →
        ∃ value, assertTime ((world.requests r).Context.Value (.string "start")) = .error value
          ∧ createLoggingMiddleware true h w r world = .panicked value world1)
    ∧ (createLoggingMiddleware true h w r world).world.log = (h w r world).world.log := by
  obtain ⟨value, hvalue⟩ := assertTime_error _ hmissing
  have key : ∃ value, createLoggingMiddleware true h w r world
      = .panicked value (h w r world).world := by
    cases hh : h w r world with
    | returned world1 =>
        exact ⟨value, by simp [createLoggingMiddleware, hh, hvalue, Outcome.world]⟩
    | panicked v world1 =>
        exact ⟨v, by simp [createLoggingMiddleware, hh, Outcome.world]⟩
  refine ⟨key, ?_, ?_⟩
  · intro world1 hret
    exact ⟨value, hvalue, by simp [createLoggingMiddleware, hret, hvalue]⟩
  · obtain ⟨v, hv⟩ := key
    rw [hv]
    rfl

/-- Witness of C6: the manifest request with an empty context, served through
a handler that returns normally. -/
theorem createLoggingMiddleware_true_panics_witness :
    (∀ t, ((worldWith 5 .background).requests 0).Context.Value (.string "start") ≠ .time t)
    ∧ createLoggingMiddleware true (okHandler 1000) 0 0 (worldWith 5 .background)
      = .panicked "interface conversion: interface {} is nil, not time.Time"
          (okHandler 1000 0 0 (worldWith 5 .background)).world
    ∧ (createLoggingMiddleware true (okHandler 1000) 0 0 (worldWith 5 .background)).world.log
      = [] :=
  ⟨fun _ hc => Any.noConfusion hc, rfl,
    (createLoggingMiddleware_true_panics (okHandler 1000) 0 0 (worldWith 5 .background)
      (fun _ hc => Any.noConfusion hc)).2.2⟩

/-- C7: for every handler next and every request r in memory,
timerMiddleware(next) calls next once, with the same response writer and a
derived request at a fresh address; the derived request's context maps the
key "start" to the clock reading taken by the timer and agrees with r's
context on every other key, and its other fields are those of r; r itself
(its context included) and every other request are unchanged in the world
next is entered in, as are the clock, the responses and the log. -/
theorem timerMiddleware_derives_request (next : Handler) (w : ResponseWriter) (r : RequestPtr)
    (world : World) (hr : r < world.allocated) :
    ∃ world1 : World,
      timerMiddleware next w r world = next w world.allocated world1
      ∧ world.allocated ≠ r
      ∧ (world1.requests world.allocated).Context.Value (.string "start") = .time world.now
      ∧ (∀ key, key ≠ .string "start" →
          (world1.requests world.allocated).Context.Value key
            = (world.requests r).Context.Value key)
      ∧ (world1.requests world.allocated).Context
          = WithValue (world.requests r).Context (.string "start") (.time world.now)
      ∧ (world1.requests world.allocated).Method = (world.requests r).Method
      ∧ (world1.requests world.allocated).URL = (world.requests r).URL
      ∧ (world1.requests world.allocated).RemoteAddr = (world.requests r).RemoteAddr
      ∧ (world1.requests world.allocated).Header = (world.requests r).Header
      ∧ world1.requests r = world.requests r
      ∧ (∀ q, q ≠ world.allocated → world1.requests q = world.requests q)
      ∧ world1.allocated = world.allocated + 1
      ∧ world1.now = world.now
      ∧ world1.responses = world.responses
      ∧ world1.log = world.log := by
  have hne : world.allocated ≠ r := Nat.ne_of_gt hr
  refine ⟨(WithContext r (WithValue (world.requests r).Context (.string "start")
    (.time (Now world))) world).2, rfl, hne, ?_, ?_, ?_, ?_, ?_, ?_, ?_, ?_, ?_, rfl, rfl, rfl, rfl⟩
  · simp [WithContext, Request.Context, WithValue, Context.Value, Now]
  · intro key hkey
    have hkey2 : ¬ (Key.string "start" = key) := fun hc => hkey hc.symm
    simp [WithContext, Request.Context, WithValue, Context.Value, hkey2]
  · simp [WithContext, Request.Context, Now]
  · simp [WithContext]
  · simp [WithContext]
  · simp [WithContext]
  · simp [WithContext]
  · simp [WithContext, Function.update_noteq hne.symm]
  · intro q hq
    simp [WithContext, Function.update_noteq hq]

/-- Witness of C7: the manifest request at address 0, whose context already
holds a value of another type under "start", served through the timer at
clock reading 42. -/
theorem timerMiddleware_derives_request_witness :
    0 < (worldWith 42 (WithValue .background (.string "start") (.other "string"))).allocated
    ∧ ∃ world1 : World,
      timerMiddleware (okHandler 7) 0 0
          (worldWith 42 (WithValue .background (.string "start") (.other "string")))
        = okHandler 7 0 1 world1
      ∧ (world1.requests 1).Context.Value (.string "start") = .time 42
      ∧ (world1.requests 0).Context.Value (.string "start") = .other "string" := by
  refine ⟨by decide, ?_⟩
  obtain ⟨world1, h1, _, h3, _, _, _, _, _, _, h10, _⟩ :=
    timerMiddleware_derives_request (okHandler 7) 0 0
      (worldWith 42 (WithValue .background (.string "start") (.other "string"))) (by decide)
  exact ⟨world1, h1, h3, by rw [h10]; rfl⟩

/-- C9: for every handler h that returns normally and every request r,
whatever its context holds, timerMiddleware(createLoggingMiddleware(true)(h))
does not fail on the timestamp: the logger finds under "start" the clock
reading taken by the timer for this request, h is called once (with the
derived request), and the world h left is returned with exactly one entry
appended to the log, whose duration is measured from that reading. -/
theorem timerMiddleware_then_logging (h : Handler) (w : ResponseWriter) (r : RequestPtr)
    (world world2 : World)
    (hret : h w world.allocated
      (WithContext r (WithValue (world.requests r).Context (.string "start") (.time world.now))
        world).2 = .returned world2) :
    (((WithContext r (WithValue (world.requests r).Context (.string "start") (.time world.now))
        world).2.requests world.allocated).Context.Value (.string "start") = .time world.now)
    ∧ timerMiddleware (createLoggingMiddleware true h) w r world =
      .returned { world2 with
        log := world2.log ++ [{
          level := "info"
          message := "Handled request"
          fields := [
            ("method", (world2.requests world.allocated).Method),
            ("url", (world2.requests world.allocated).URL),
            ("remoteAddr", (world2.requests world.allocated).RemoteAddr),
            ("userAgent", (world2.requests world.allocated).Header.Get "User-Agent"),
            ("duration", durationString world2.now world.now)] }] } := by
  have hstart : ((WithContext r (WithValue (world.requests r).Context (.string "start")
      (.time world.now)) world).2.requests world.allocated).Context.Value (.string "start")
      = .time world.now := by
    simp [WithContext, Request.Context, WithValue, Context.Value]
  refine ⟨hstart, ?_⟩
  show createLoggingMiddleware true h w world.allocated
    (WithContext r (WithValue (world.requests r).Context (.string "start") (.time world.now))
      world).2 = _
  simp only [createLoggingMiddleware, if_true, hret, hstart, assertTime, Info, Now]

/-- Witness of C9: the manifest request with an empty context, entered at
clock reading 42 and served by a handler that takes 2,500,000 ns. -/
theorem timerMiddleware_then_logging_witness :
    okHandler 2500000 0 1
      (WithContext 0 (WithValue .background (.string "start") (.time 42))
        (worldWith 42 .background)).2
      = .returned (okHandler 2500000 0 1
        (WithContext 0 (WithValue .background (.string "start") (.time 42))
          (worldWith 42 .background)).2).world
    ∧ (timerMiddleware (createLoggingMiddleware true (okHandler 2500000)) 0 0
        (worldWith 42 .background)).world.log =
      [{ level := "info"
         message := "Handled request"
         fields := [
           ("method", "GET"),
           ("url", "/manifest.json"),
           ("remoteAddr", "203.0.113.7:51234"),
           ("userAgent", "StremioShell/4.4.106"),
           ("duration", "2ms")] }] := by
  refine ⟨rfl, ?_⟩
  rw [(timerMiddleware_then_logging (okHandler 2500000) 0 0 (worldWith 42 .background) _ rfl).2]
  rfl

theorem loggedDuration_logging (h : Handler) (w : ResponseWriter) (r : RequestPtr)
    (world world1 : World) (reqStart : Time)
    (hstart : (world.requests r).Context.Value (.string "start") = .time reqStart)
    (hret : h w r world = .returned world1) :
    (createLoggingMiddleware true h w r world).loggedDuration
      = some (durationString world1.now reqStart) := by
  simp [createLoggingMiddleware, hret, hstart, assertTime, Info, Now, Outcome.loggedDuration,
    Outcome.world, List.lookup]

theorem milliseconds_nonneg (now reqStart : Int) (hle : reqStart ≤ now) :
    0 ≤ (Since now reqStart).Milliseconds := by
  have hmax : (0 : Int) ≤ maxDuration := by decide
  have hmin : minDuration ≤ (0 : Int) := by decide
  have hd : (0 : Int) ≤ now - reqStart := by omega
  unfold Duration.Milliseconds Since Time.Sub
  split_ifs with h1 h2
  · exact Int.tdiv_nonneg hmax (by norm_num)
  · exact absurd (lt_of_lt_of_le h2 hmin) (not_lt.mpr hd)
  · exact Int.tdiv_nonneg hd (by norm_num)

theorem durationString_bounded (now reqStart : Int) (hle : reqStart ≤ now)
    (hbound : now - reqStart ≤ maxDuration) :
    durationString now reqStart = Nat.repr ((now - reqStart).toNat / 1000000) ++ "ms" := by
  have hmin : minDuration ≤ (0 : Int) := by decide
  have hd : (0 : Int) ≤ now - reqStart := by omega
  have hsince : Since now reqStart = now - reqStart := by
    unfold Since Time.Sub
    rw [if_neg (not_lt.mpr hbound), if_neg (not_lt.mpr (le_trans hmin hd))]
  have hms : (Int.tdiv (now - reqStart) 1000000).toNat = (now - reqStart).toNat / 1000000 := by
    rw [Int.tdiv_eq_ediv hd (by norm_num)]
    omega
  have hnn : ¬ Int.tdiv (now - reqStart) 1000000 < 0 :=
    not_lt.mpr (Int.tdiv_nonneg hd (by norm_num))
  unfold durationString FormatInt Duration.Milliseconds
  rw [hsince, if_neg hnn, hms]

theorem toNat_div_million_eq_zero (d : Int) (hsmall : d < 1000000) :
    d.toNat / 1000000 = 0 := by
  omega

theorem durationString_saturated (now reqStart : Int) (hbound : maxDuration < now - reqStart) :
    durationString now reqStart = "9223372036854ms" := by
  have hsince : Since now reqStart = maxDuration := by
    unfold Since Time.Sub
    rw [if_pos hbound]
  unfold durationString
  rw [hsince]
  decide

/-- C10 fails as stated: with the zero time stored under "start" and the
request completed on 2026-11-01 (a later instant), the elapsed time exceeds
the largest Duration and the logged duration is "9223372036854ms", not the
whole milliseconds of the elapsed time, "63929088000000ms". -/
theorem logged_duration_saturates :
    (0 : Time) ≤ november2026
    ∧ (createLoggingMiddleware true (okHandler 0) 0 0
        (worldWith november2026 (WithValue .background (.string "start") (.time 0)))
      ).loggedDuration = some "9223372036854ms"
    ∧ Nat.repr ((november2026 - 0).toNat / 1000000) ++ "ms" = "63929088000000ms"
    ∧ (createLoggingMiddleware true (okHandler 0) 0 0
        (worldWith november2026 (WithValue .background (.string "start") (.time 0)))
      ).logsWholeMilliseconds 0 november2026 = false := by
  refine ⟨by decide, by decide, by decide, by decide⟩

/-- C10, amended: for every start time reqStart read from the context and
every completion time t (the clock reading when the handler has returned)
with t >= reqStart, the logged number of milliseconds is >= 0; when the
elapsed t - reqStart is at most the largest Duration (2^63 - 1 ns), the logged
duration field is the base-10 rendering of the whole number of milliseconds
in t - reqStart (elapsed nanoseconds divided by 1,000,000, truncated)
immediately followed by "ms", so anything under 1 ms logs "0ms"; a longer
elapsed time is logged as "9223372036854ms". -/
theorem logged_duration_whole_milliseconds (h : Handler) (w : ResponseWriter) (r : RequestPtr)
    (world world1 : World) (reqStart : Time)
    (hstart : (world.requests r).Context.Value (.string "start") = .time reqStart)
    (hret : h w r world = .returned world1)
    (hle : reqStart ≤ world1.now) :
    0 ≤ (Since world1.now reqStart).Milliseconds
    ∧ (world1.now - reqStart ≤ maxDuration →
        (createLoggingMiddleware true h w r world).loggedDuration
          = some (Nat.repr ((world1.now - reqStart).toNat / 1000000) ++ "ms"))
    ∧ (world1.now - reqStart < 1000000 →
        (createLoggingMiddleware true h w r world).loggedDuration = some "0ms")
    ∧ (maxDuration < world1.now - reqStart →
        (createLoggingMiddleware true h w r world).loggedDuration = some "9223372036854ms") := by
  have hlog := loggedDuration_logging h w r world world1 reqStart hstart hret
  have hmax : (1000000 : Int) ≤ maxDuration := by decide
  refine ⟨milliseconds_nonneg _ _ hle, ?_, ?_, ?_⟩
  · intro hbound
    rw [hlog, durationString_bounded _ _ hle hbound]
  · intro hsmall
    rw [hlog, durationString_bounded _ _ hle (le_trans (le_of_lt hsmall) hmax),
      toNat_div_million_eq_zero _ hsmall]
    rfl
  · intro hbound
    rw [hlog, durationString_saturated _ _ hbound]

/-- Witness of C10: start time 5 in the context, handler entered at clock
reading 5 and taking 1,999,999 ns: the logged duration is "1ms". -/
theorem logged_duration_whole_milliseconds_witness :
    ((worldWith 5 (WithValue .background (.string "start") (.time 5))).requests 0).Context.Value
        (.string "start") = .time 5
    ∧ (5 : Time) ≤ (okHandler 1999999 0 0
        (worldWith 5 (WithValue .background (.string "start") (.time 5)))).world.now
    ∧ (createLoggingMiddleware true (okHandler 1999999) 0 0
        (worldWith 5 (WithValue .background (.string "start") (.time 5)))).loggedDuration
      = some "1ms" :=
  ⟨rfl, by decide,
    (logged_duration_whole_milliseconds (okHandler 1999999) 0 0
      (worldWith 5 (WithValue .background (.string "start") (.time 5))) _ 5 rfl rfl
      (by decide)).2.1 (by decide)⟩

/-! ## Properties of the CORS middleware -/

theorem corsPolicy_eq :
    corsPolicy =
      { allowedHeaders := ["Accept", "Accept-Language", "Content-Language", "Origin",
          "Content-Type", "Accept-Encoding", "X-Requested-With"]
        allowedMethods := ["GET"]
        allowedOrigins := ["*"]
        allowedOriginValidator := none
        exposedHeaders := []
        maxAge := 0
        ignoreOptions := false
        allowCredentials := false
        optionStatusCode := 200 } := by
  rfl

theorem corsPolicy_isOriginAllowed (origin : String) (horigin : origin ≠ "") :
    corsPolicy.isOriginAllowed origin = true := by
  rw [corsPolicy_eq]
  simp [cors.isOriginAllowed, horigin, corsOriginMatchAll]

theorem isMatch_allowedMethods (method : String) :
    isMatch method corsPolicy.allowedMethods = true ↔ method = "GET" := by
  rw [corsPolicy_eq]
  simp [isMatch]

theorem isMatch_iff_mem (needle : String) (haystack : List String) :
    isMatch needle haystack = true ↔ needle ∈ haystack := by
  simp [isMatch]

theorem corsHeaderList_subset : corsHeaderList ⊆ corsPolicy.allowedHeaders := by
  rw [corsPolicy_eq]
  decide

theorem header_get_ne_empty (h : Header) (key : String)
    (hcanon : CanonicalHeaderKey key = key) (hget : h.Get key ≠ "") :
    (h.lookup key).isNone = false := by
  unfold Header.Get at hget
  rw [hcanon] at hget
  cases hl : h.lookup key with
  | none => rw [hl] at hget; exact absurd rfl hget
  | some vs => rfl

theorem header_get_set (h : Header) (key value : String) :
    (h.Set key value).Get key = value := by
  simp [Header.Get, Header.Set, List.lookup]

theorem cors_preflight_outcome (next : Handler) (w : ResponseWriter) (r : RequestPtr)
    (world : World) (allowedHeaders : List String)
    (hmethod : (world.requests r).Method = "OPTIONS")
    (horigin : (world.requests r).Header.Get "Origin" ≠ "")
    (hreqMethod : (world.requests r).Header.Get "Access-Control-Request-Method" = "GET")
    (hreqHeaders : corsPolicy.requestedHeaders []
      (SplitComma ((world.requests r).Header.Get "Access-Control-Request-Headers"))
      = some allowedHeaders) :
    createCORSmiddleware next w r world =
      .returned (WriteHeader w 200 (SetHeader w "Access-Control-Allow-Origin" "*"
        (if allowedHeaders.length > 0 then
          SetHeader w "Access-Control-Allow-Headers" (JoinComma allowedHeaders) world
        else world))) := by
  have h1 := corsPolicy_isOriginAllowed _ horigin
  have h2 : ((world.requests r).Header.lookup "Access-Control-Request-Method").isNone = false :=
    header_get_ne_empty _ _ (by decide) (by rw [hreqMethod]; decide)
  have h3 : isMatch "GET" corsPolicy.allowedMethods = true := (isMatch_allowedMethods _).mpr rfl
  have h4 : isMatch "GET" defaultCorsMethods = true := by decide
  have f1 : corsPolicy.ignoreOptions = false := rfl
  have f2 : corsPolicy.maxAge = 0 := rfl
  have f3 : corsPolicy.allowCredentials = false := rfl
  have f4 : corsPolicy.allowedOrigins = ["*"] := rfl
  have f5 : corsPolicy.optionStatusCode = 200 := rfl
  have f6 : corsPolicy.allowedOriginValidator = none := rfl
  show corsPolicy.ServeHTTP next w r world = _
  unfold cors.ServeHTTP
  simp only [corsOriginHeader, corsOptionMethod, corsRequestMethodHeader,
    corsRequestHeadersHeader, corsAllowHeadersHeader, corsAllowOriginHeader, h1, h2, h3, h4,
    hmethod, hreqMethod, hreqHeaders, f1, f2, f3, f4, f5, f6, cors.writeCommonHeaders,
    cors.returnOrigin, corsOriginMatchAll]
  simp

theorem writeHeader_responses (w : ResponseWriter) (code : Nat) (world : World) :
    ((WriteHeader w code world).responses w).Header = (world.responses w).Header
    ∧ ((WriteHeader w code world).responses w).status
      = some ((world.responses w).status.getD code) := by
  simp [WriteHeader]

theorem setHeader_responses (w : ResponseWriter) (key value : String) (world : World) :
    ((SetHeader w key value world).responses w).Header = (world.responses w).Header.Set key value
    ∧ ((SetHeader w key value world).responses w).status = (world.responses w).status := by
  simp [SetHeader]

theorem setHeader_frame (w : ResponseWriter) (key value : String) (world : World) :
    (∀ w1, w1 ≠ w → (SetHeader w key value world).responses w1 = world.responses w1)
    ∧ (SetHeader w key value world).requests = world.requests
    ∧ (SetHeader w key value world).allocated = world.allocated
    ∧ (SetHeader w key value world).now = world.now
    ∧ (SetHeader w key value world).log = world.log := by
  refine ⟨fun w1 hw1 => ?_, rfl, rfl, rfl, rfl⟩
  simp [SetHeader, Function.update_noteq hw1]

theorem writeHeader_frame (w : ResponseWriter) (code : Nat) (world : World) :
    (∀ w1, w1 ≠ w → (WriteHeader w code world).responses w1 = world.responses w1)
    ∧ (WriteHeader w code world).requests = world.requests
    ∧ (WriteHeader w code world).allocated = world.allocated
    ∧ (WriteHeader w code world).now = world.now
    ∧ (WriteHeader w code world).log = world.log := by
  refine ⟨fun w1 hw1 => ?_, rfl, rfl, rfl, rfl⟩
  simp [WriteHeader, Function.update_noteq hw1]

theorem corsPolicy_requestedHeaders_eq (vs : List String) :
    ∀ acc : List String,
      (∀ v ∈ vs, CanonicalHeaderKey (TrimSpace v) = ""
        ∨ CanonicalHeaderKey (TrimSpace v) ∈ corsHeaderList) →
      corsPolicy.requestedHeaders acc vs = some (acc ++
        (vs.map (fun v => CanonicalHeaderKey (TrimSpace v))).filter (fun c =>
          !(c == "" || ["Accept", "Accept-Language", "Content-Language", "Origin"].contains c)))
    := by
  induction vs with
  | nil => intro acc _; simp [cors.requestedHeaders]
  | cons v vs ih =>
      intro acc hall
      have hrest : ∀ u ∈ vs, CanonicalHeaderKey (TrimSpace u) = ""
          ∨ CanonicalHeaderKey (TrimSpace u) ∈ corsHeaderList :=
        fun u hu => hall u (List.mem_cons_of_mem _ hu)
      have hv := hall v (List.mem_cons_self _ _)
      unfold cors.requestedHeaders
      by_cases hskip : (CanonicalHeaderKey (TrimSpace v) == ""
          || isMatch (CanonicalHeaderKey (TrimSpace v)) defaultCorsHeaders) = true
      · have hskip2 : (CanonicalHeaderKey (TrimSpace v) == ""
            || ["Accept", "Accept-Language", "Content-Language", "Origin"].contains
              (CanonicalHeaderKey (TrimSpace v))) = true := hskip
        simp only [hskip, if_true]
        rw [ih acc hrest, List.map_cons, List.filter_cons_of_neg (by simp only [hskip2]; simp)]
      · have hin : isMatch (CanonicalHeaderKey (TrimSpace v)) corsPolicy.allowedHeaders = true := by
          rcases hv with hv | hv
          · exact absurd (by simp [hv]) hskip
          · exact (isMatch_iff_mem _ _).mpr (corsHeaderList_subset hv)
        have hskip2 : ¬ (CanonicalHeaderKey (TrimSpace v) == ""
            || ["Accept", "Accept-Language", "Content-Language", "Origin"].contains
              (CanonicalHeaderKey (TrimSpace v))) = true := hskip
        simp only [hskip, hin, Bool.not_true, if_false, Bool.false_eq_true]
        rw [ih _ hrest, List.map_cons, List.filter_cons_of_pos (by simp only [hskip2]; simp),
          List.append_assoc, List.singleton_append]

theorem lookup_filter_ne (h : Header) (key other : String) (hne : key ≠ other) :
    (h.filter (fun kv => kv.1 != other)).lookup key = h.lookup key := by
  induction h with
  | nil => rfl
  | cons kv rest ih =>
      obtain ⟨k, vs⟩ := kv
      by_cases hk : k = other
      · subst hk
        have hkey : (key == k) = false := beq_false_of_ne hne
        have hdrop : ((k, vs).1 != k) = false := by simp
        rw [List.filter_cons_of_neg (by rw [hdrop]; simp), ih, List.lookup_cons, hkey]
      · have hkeep : (k != other) = true := by simpa using hk
        have hcons : List.filter (fun kv => kv.1 != other) ((k, vs) :: rest)
            = (k, vs) :: List.filter (fun kv => kv.1 != other) rest := by
          simp only [List.filter, hkeep]
        rw [hcons, List.lookup_cons, List.lookup_cons, ih]

theorem header_get_set_ne (h : Header) (key other value : String)
    (hne : CanonicalHeaderKey key ≠ CanonicalHeaderKey other) :
    (h.Set other value).Get key = h.Get key := by
  have hbeq : (CanonicalHeaderKey key == CanonicalHeaderKey other) = false :=
    beq_false_of_ne hne
  unfold Header.Get Header.Set
  rw [List.lookup, hbeq, lookup_filter_ne _ _ _ hne]

/-- C8, amended: for every preflight request (method OPTIONS, a NON-EMPTY
Origin header, Access-Control-Request-Method GET, and every requested header
empty or, in canonical form, on the configured allow-list), the handler built
by createCORSmiddleware()(next) returns the same world whatever next is (next
is never called). The response of writer w is exactly its previous one with
these CORS headers written: Access-Control-Allow-Headers set to the requested
headers outside the library's default set (canonical form, request order,
comma-joined) when there is such a header, then Access-Control-Allow-Origin
set to "*"; no other header is written, and the status is 200 (unless a status
was already written). Nothing else changes (other responses, requests, clock
and log). The configured policy allows every non-empty origin (allowed
origins are "*") and, among the preflight methods, exactly GET. -/
theorem createCORSmiddleware_preflight (w : ResponseWriter) (r : RequestPtr) (world : World)
    (hmethod : (world.requests r).Method = "OPTIONS")
    (horigin : (world.requests r).Header.Get "Origin" ≠ "")
    (hreqMethod : (world.requests r).Header.Get "Access-Control-Request-Method" = "GET")
    (hreqHeaders : ∀ v ∈
      SplitComma ((world.requests r).Header.Get "Access-Control-Request-Headers"),
      CanonicalHeaderKey (TrimSpace v) = ""
        ∨ CanonicalHeaderKey (TrimSpace v) ∈ corsHeaderList) :
    (∃ world1 : World,
      (∀ next : Handler, createCORSmiddleware next w r world = .returned world1)
      ∧ (world1.responses w).Header.Get "Access-Control-Allow-Origin" = "*"
      ∧ (world1.responses w).status = some ((world.responses w).status.getD 200)
      ∧ (∀ w1, w1 ≠ w → world1.responses w1 = world.responses w1)
      ∧ world1.requests = world.requests
      ∧ world1.allocated = world.allocated
      ∧ world1.now = world.now
      ∧ world1.log = world.log
      ∧ world1.responses w =
          { Header :=
              (if requestedNonDefaultHeaders
                  ((world.requests r).Header.Get "Access-Control-Request-Headers") = [] then
                (world.responses w).Header
              else
                (world.responses w).Header.Set "Access-Control-Allow-Headers"
                  (JoinComma (requestedNonDefaultHeaders
                    ((world.requests r).Header.Get "Access-Control-Request-Headers")))).Set
                "Access-Control-Allow-Origin" "*"
            status := some ((world.responses w).status.getD 200) }
      ∧ (requestedNonDefaultHeaders
            ((world.requests r).Header.Get "Access-Control-Request-Headers") ≠ [] →
          (world1.responses w).Header.Get "Access-Control-Allow-Headers"
            = JoinComma (requestedNonDefaultHeaders
                ((world.requests r).Header.Get "Access-Control-Request-Headers")))
      ∧ (requestedNonDefaultHeaders
            ((world.requests r).Header.Get "Access-Control-Request-Headers") = [] →
          (world1.responses w).Header.Get "Access-Control-Allow-Headers"
            = (world.responses w).Header.Get "Access-Control-Allow-Headers")
      ∧ (world1.responses w).Header.Get "Access-Control-Allow-Methods"
          = (world.responses w).Header.Get "Access-Control-Allow-Methods"
      ∧ (world1.responses w).Header.Get "Access-Control-Allow-Credentials"
          = (world.responses w).Header.Get "Access-Control-Allow-Credentials")
    ∧ (∀ next : Handler, createCORSmiddleware next = corsPolicy.ServeHTTP next)
    ∧ corsPolicy.allowedOrigins = ["*"]
    ∧ (∀ origin, origin ≠ "" → corsPolicy.isOriginAllowed origin = true)
    ∧ corsPolicy.allowedMethods = ["GET"]
    ∧ (∀ method, isMatch method corsPolicy.allowedMethods = true ↔ method = "GET") := by
  have hallowed : corsPolicy.requestedHeaders []
      (SplitComma ((world.requests r).Header.Get "Access-Control-Request-Headers"))
      = some (requestedNonDefaultHeaders
          ((world.requests r).Header.Get "Access-Control-Request-Headers")) := by
    rw [corsPolicy_requestedHeaders_eq _ [] hreqHeaders, List.nil_append]
    rfl
  have hresp : ((WriteHeader w 200 (SetHeader w "Access-Control-Allow-Origin" "*"
      (if (requestedNonDefaultHeaders
          ((world.requests r).Header.Get "Access-Control-Request-Headers")).length > 0 then
        SetHeader w "Access-Control-Allow-Headers" (JoinComma (requestedNonDefaultHeaders
          ((world.requests r).Header.Get "Access-Control-Request-Headers"))) world
      else world))).responses w) =
      { Header :=
          (if requestedNonDefaultHeaders
              ((world.requests r).Header.Get "Access-Control-Request-Headers") = [] then
            (world.responses w).Header
          else
            (world.responses w).Header.Set "Access-Control-Allow-Headers"
              (JoinComma (requestedNonDefaultHeaders
                ((world.requests r).Header.Get "Access-Control-Request-Headers")))).Set
            "Access-Control-Allow-Origin" "*"
        status := some ((world.responses w).status.getD 200) } := by
    cases hl : requestedNonDefaultHeaders
        ((world.requests r).Header.Get "Access-Control-Request-Headers") with
    | nil => simp [WriteHeader, SetHeader]
    | cons c cs => simp [WriteHeader, SetHeader]
  refine ⟨⟨_, fun next => cors_preflight_outcome next w r world
    (requestedNonDefaultHeaders ((world.requests r).Header.Get "Access-Control-Request-Headers"))
    hmethod horigin hreqMethod hallowed, ?_, ?_, ?_, ?_, ?_, ?_, ?_, hresp, ?_, ?_, ?_, ?_⟩,
    fun _ => rfl, rfl,
    corsPolicy_isOriginAllowed, rfl, isMatch_allowedMethods⟩
  · rw [(writeHeader_responses _ _ _).1, (setHeader_responses _ _ _ _).1]
    exact header_get_set _ _ _
  · rw [(writeHeader_responses _ _ _).2, (setHeader_responses _ _ _ _).2]
    split_ifs
    · rw [(setHeader_responses _ _ _ _).2]
    · rfl
  · intro w1 hw1
    rw [(writeHeader_frame _ _ _).1 w1 hw1, (setHeader_frame _ _ _ _).1 w1 hw1]
    split_ifs
    · rw [(setHeader_frame _ _ _ _).1 w1 hw1]
    · rfl
  · split_ifs <;> rfl
  · split_ifs <;> rfl
  · split_ifs <;> rfl
  · split_ifs <;> rfl
  · intro hne
    rw [hresp, if_neg hne, header_get_set_ne _ _ _ _ (by decide)]
    exact header_get_set _ _ _
  · intro hnil
    rw [hresp, if_pos hnil, header_get_set_ne _ _ _ _ (by decide)]
  · rw [hresp, header_get_set_ne _ _ _ _ (by decide)]
    split_ifs
    · rfl
    · rw [header_get_set_ne _ _ _ _ (by decide)]
  · rw [hresp, header_get_set_ne _ _ _ _ (by decide)]
    split_ifs
    · rfl
    · rw [header_get_set_ne _ _ _ _ (by decide)]

/-- Witness of C8: the preflight of the Stremio web client asking for the
headers content-type and x-requested-with, in front of a handler that would
panic if it were called. -/
theorem createCORSmiddleware_preflight_witness :
    ((preflightWorld "content-type, x-requested-with").requests 0).Method = "OPTIONS"
    ∧ ((preflightWorld "content-type, x-requested-with").requests 0).Header.Get "Origin" ≠ ""
    ∧ ((preflightWorld "content-type, x-requested-with").requests 0).Header.Get
        "Access-Control-Request-Method" = "GET"
    ∧ (∃ world1 : World,
        createCORSmiddleware panicHandler 0 0 (preflightWorld "content-type, x-requested-with")
          = .returned world1
        ∧ (world1.responses 0).Header.Get "Access-Control-Allow-Origin" = "*"
        ∧ (world1.responses 0).status = some 200
        ∧ world1.log = []
        ∧ (world1.responses 0).Header =
            [("Access-Control-Allow-Origin", ["*"]),
              ("Access-Control-Allow-Headers", ["Content-Type,X-Requested-With"])]) := by
  refine ⟨rfl, by decide, by decide, ?_⟩
  obtain ⟨⟨world1, hall, horigin, hstatus, _, _, _, _, hlog, hresp, _⟩, _⟩ :=
    createCORSmiddleware_preflight 0 0 (preflightWorld "content-type, x-requested-with")
      rfl (by decide) (by decide) (by decide)
  refine ⟨world1, hall panicHandler, horigin, hstatus, hlog, ?_⟩
  rw [hresp]
  decide

/-- C8 fails as stated: a preflight (method OPTIONS, Access-Control-Request-
Method GET, no requested headers) that carries an Origin header with an empty
value is answered without any CORS header: the world is returned unchanged,
the response of the writer has no header at all. -/
theorem createCORSmiddleware_empty_origin :
    (emptyOriginWorld.requests 0).Method = "OPTIONS"
    ∧ (emptyOriginWorld.requests 0).Header.lookup "Origin" = some [""]
    ∧ (emptyOriginWorld.requests 0).Header.Get "Access-Control-Request-Method" = "GET"
    ∧ (∀ v ∈ SplitComma
        ((emptyOriginWorld.requests 0).Header.Get "Access-Control-Request-Headers"),
        CanonicalHeaderKey (TrimSpace v) = ""
          ∨ CanonicalHeaderKey (TrimSpace v) ∈ corsHeaderList)
    ∧ createCORSmiddleware panicHandler 0 0 emptyOriginWorld = .returned emptyOriginWorld
    ∧ ((createCORSmiddleware panicHandler 0 0 emptyOriginWorld).world.responses 0).Header = []
    ∧ ((createCORSmiddleware panicHandler 0 0 emptyOriginWorld).world.responses 0).Header.Get
        "Access-Control-Allow-Origin" = ""
    ∧ ((createCORSmiddleware panicHandler 0 0 emptyOriginWorld).world.responses 0).status
        = none := by
  refine ⟨rfl, rfl, by decide, by decide, rfl, rfl, by decide, rfl⟩

end Stremio
